import Mathlib

/-!
Verification of the calendar synchronization and editor logic of the
schedule-bot frontend.  The definitions below are a shallow embedding of
`src/frontend/src/store/user.ts` and
`src/frontend/src/components/CalendarComponent.vue`:
JavaScript strings are Lean `String`s, nullable/optional values are
`Option`s, millisecond timestamps are `Int`s, and each async action is a
pure transition on an explicit state record, parameterised by the outcome
of its backend calls (`Except Unit _`).
-/

namespace ScheduleBot

/-- JavaScript truthiness of a nullable string: `undefined`/`null` and the
empty string are falsy, every other string is truthy. -/
def jsTruthy : Option String → Bool
  | none => false
  | some s => s ≠ ""

/-- JavaScript `String.prototype.trim()`: strip leading and trailing
whitespace. -/
def jsTrim (s : String) : String :=
  String.mk (((s.data.dropWhile Char.isWhitespace).reverse.dropWhile Char.isWhitespace).reverse)

/-! ## Connection state store (`src/frontend/src/store/user.ts`) -/

/-- `Profile` of `user.ts`. -/
structure Profile where
  name : String
  email : Option String := none
  avatarUrl : Option String := none
deriving Repr, DecidableEq

/-- The Pinia store state of `useUserStore`. -/
structure UserState where
  authed : Bool
  profile : Profile
  googleConnected : Bool
  googleEmail : Option String
  busy : Bool
  initialized : Bool
  hasRefresh : Bool
deriving Repr, DecidableEq

/-- The getter `isReady(s) { return s.authed && s.googleConnected; }`. -/
def isReady (s : UserState) : Bool := s.authed && s.googleConnected

/-- Body of the response of `GET /auth/google/status`, as consumed by
`fetchGoogleStatus` (`!!data?.connected`, `data?.email`, `data?.profile`,
`data?.has_refresh`). -/
structure StatusData where
  connected : Bool
  email : Option String := none
  profilePresent : Bool := false
  profileName : Option String := none
  profileAvatarUrl : Option String := none
  hasRefresh : Bool := false
deriving Repr, DecidableEq

/-- `fetchGoogleStatus`: the `try` block updates the connection fields from
the response; the `finally` block sets `initialized := true` whether the
request succeeded or threw. -/
def fetchGoogleStatus (s : UserState) (resp : Except Unit StatusData) : UserState :=
  match resp with
  | .error _ => { s with initialized := true }
  | .ok d =>
    let s1 := { s with googleConnected := d.connected, googleEmail := d.email }
    let s2 :=
      if d.profilePresent || jsTruthy d.email then
        { s1 with
          authed := true
          profile :=
            { name := d.profileName.getD ""
              email := some (d.email.getD "")
              avatarUrl := some (d.profileAvatarUrl.getD "") } }
      else
        { s1 with authed := false, profile := { name := "" } }
    { s2 with hasRefresh := d.hasRefresh, initialized := true }

/-- Outcomes of the three awaited steps inside `loginAndConnect`:
`requestGoogleCode` (which may throw if the identity library is not loaded,
or resolve with `null` on user cancel), the `POST /auth/google/connect`
call, and the `GET /auth/google/status` call made by `fetchGoogleStatus`. -/
structure LoginEnv where
  codeResp : Except Unit (Option String)
  connectResp : Except Unit Unit
  statusResp : Except Unit StatusData

/-- `loginAndConnect`: sets `busy := true`; `if (!code) return false`;
posts the code; refreshes the status; returns `googleConnected`; any
exception is caught and converted to `false`; `busy` is reset in
`finally`.  Note that a failure inside `fetchGoogleStatus` still runs its
own `finally` (setting `initialized`) before the exception reaches the
`catch` here. -/
def loginAndConnect (s : UserState) (env : LoginEnv) : Bool × UserState :=
  let s1 := { s with busy := true }
  match env.codeResp with
  | .error _ => (false, { s1 with busy := false })
  | .ok none => (false, { s1 with busy := false })
  | .ok (some c) =>
    if c = "" then (false, { s1 with busy := false })
    else
      match env.connectResp with
      | .error _ => (false, { s1 with busy := false })
      | .ok _ =>
        let s2 := fetchGoogleStatus s1 env.statusResp
        match env.statusResp with
        | .error _ => (false, { s2 with busy := false })
        | .ok _ => (s2.googleConnected, { s2 with busy := false })

/-- `disconnectGoogle`: `busy := true`, post to the disconnect endpoint,
refresh status, reset `busy` in `finally` (no `catch`: a failed post skips
the status refresh but still clears `busy`). -/
def disconnectGoogle (s : UserState)
    (discResp : Except Unit Unit) (statusResp : Except Unit StatusData) : UserState :=
  let s1 := { s with busy := true }
  match discResp with
  | .error _ => { s1 with busy := false }
  | .ok _ => { fetchGoogleStatus s1 statusResp with busy := false }

/-- `logout()`: local-only reset; forces `initialized := true`.  (The
removal of the persisted session id is outside the store state.) -/
def logout (s : UserState) : UserState :=
  { s with
    authed := false
    googleConnected := false
    googleEmail := none
    profile := { name := "" }
    initialized := true }

/-! ## Event mapper (`CalendarComponent.vue`) -/

/-- JavaScript `a || b` on nullable strings: `a` when truthy, else `b`. -/
def jsOrOpt (a b : Option String) : Option String :=
  if jsTruthy a then a else b

/-- JavaScript `a || d` coercing a nullable string to a string default. -/
def jsOrDefault (a : Option String) (d : String) : String :=
  match a with
  | some s => if s ≠ "" then s else d
  | none => d

/-- `start` / `end` object of a Google Calendar wire event. -/
structure WireTime where
  dateTime : Option String := none
  date : Option String := none
deriving Repr, DecidableEq

/-- An entry of the wire `attendees` array. -/
structure WireAttendee where
  email : Option String := none
deriving Repr, DecidableEq

/-- A backend calendar event as consumed by `mapFromBackend`. -/
structure WireEvent where
  id : String
  summary : Option String := none
  start : Option WireTime := none
  «end» : Option WireTime := none
  attendees : Option (List WireAttendee) := none
  location : Option String := none
  description : Option String := none
  _calendarId : Option String := none
deriving Repr, DecidableEq

/-- The FullCalendar event object produced by `mapFromBackend`
(`extendedProps` flattened into the record). -/
structure MappedEvent where
  id : String
  title : String
  start : Option String
  «end» : Option String
  allDay : Bool
  calendarId : String
  location : String
  description : String
  attendees : List String
deriving Repr, DecidableEq

/-- `mapFromBackend` of `CalendarComponent.vue` (the full-featured variant,
which also preserves location / description / attendees in
`extendedProps`). -/
def mapFromBackend (e : WireEvent) : MappedEvent :=
  let startVal := jsOrOpt (jsOrOpt (e.start.bind (·.dateTime)) (e.start.bind (·.date))) none
  let endVal := jsOrOpt (jsOrOpt (e.«end».bind (·.dateTime)) (e.«end».bind (·.date))) none
  let allDay := jsTruthy (e.start.bind (·.date)) && !jsTruthy (e.start.bind (·.dateTime))
  let attendees :=
    match e.attendees with
    | some l => (l.map WireAttendee.email).filterMap fun o => if jsTruthy o then o else none
    | none => []
  { id := e.id
    title := jsOrDefault e.summary "(제목 없음)"
    start := startVal
    «end» := endVal
    allDay := allDay
    calendarId := jsOrDefault e._calendarId "primary"
    location := jsOrDefault e.location ""
    description := jsOrDefault e.description ""
    attendees := attendees }

/-- `const oneHour = 60 * 60 * 1000;` (milliseconds). -/
def oneHour : Int := 60 * 60 * 1000

/-- `ensureEndAfterStart(start, end)` over millisecond timestamps: a `Date`
object is always truthy, so `end ? end.getTime() : s + oneHour` reads the
given end whenever one is present. -/
def ensureEndAfterStart (start : Int) («end» : Option Int) : Int × Int :=
  let s := start
  let e := match «end» with
    | some e => e
    | none => s + oneHour
  let e := if e ≤ s then s + oneHour else e
  (s, e)

/-! ## Attendee email validation
(`/^[^\s@]+@[^\s@]+\.[^\s@]+$/i` in `CalendarComponent.vue` and
`CalendarModal.vue`). -/

/-- A character allowed by the class `[^\s@]`. -/
def isEmailChar (c : Char) : Bool := !c.isWhitespace && c ≠ '@'

/-- Whether a list of characters (the domain with its first character
removed) contains a `'.'` that is not its last character, i.e. whether the
domain splits as `[^\s@]+ "." [^\s@]+`. -/
def domainTail : List Char → Bool
  | [] => false
  | [_] => false
  | c :: rest => c = '.' || domainTail rest

/-- `isValidEmail(s) = emailRegex.test(s.trim())`: the string trims to
`local "@" domain` where `local` is a nonempty run of non-space non-`@`
characters and `domain` is such a run containing an inner dot. -/
def isValidEmail (s : String) : Bool :=
  let cs := (jsTrim s).toList
  match cs.splitOn '@' with
  | [loc, dom] =>
      !loc.isEmpty && loc.all isEmailChar && dom.all isEmailChar &&
      (match dom with
       | [] => false
       | _ :: rest => domainTail rest)
  | _ => false

/-! ## Editor modal state machine (`CalendarComponent.vue`) -/

/-- `type Mode = "create" | "edit"`. -/
inductive Mode
  | create
  | edit
deriving Repr, DecidableEq

/-- The reactive `modal` record of the full-featured editor. -/
structure ModalState where
  «open» : Bool
  mode : Mode
  id : Option String
  calendarId : Option String
  title : String
  startLocal : String
  endLocal : String
  fromAllDay : Bool
  initialEndLocal : String
  location : String
  description : String
  attendees : List String
  notifyAttendees : Bool
deriving Repr, DecidableEq

/-- The neutral empty modal: both the initial value of `modal` and the
state `closeModal()` resets it to. -/
def emptyModal : ModalState :=
  { «open» := false
    mode := Mode.create
    id := none
    calendarId := none
    title := ""
    startLocal := ""
    endLocal := ""
    fromAllDay := false
    initialEndLocal := ""
    location := ""
    description := ""
    attendees := []
    notifyAttendees := false }

/-- The component state touched by the attendee and save logic: the modal,
the `saving` flag and the attendee input box with its field-level error. -/
structure CalState where
  modal : ModalState
  saving : Bool
  attendeeInput : String
  attendeeError : Option String
deriving Repr, DecidableEq

/-- Effect of `closeModal()` (reset the modal and the attendee input and
error; `saving` is not touched by `closeModal` itself). -/
def closeState (st : CalState) : CalState :=
  { st with modal := emptyModal, attendeeInput := "", attendeeError := none }

/-- The field-level error message set by `tryAddAttendee` on an invalid
email. -/
def attendeeFormatError : String :=
  "이메일 형식으로 입력해주세요 (예: name@example.com)"

/-- The form-level error message set by `saveModal` when a stored attendee
fails validation. -/
def attendeeListError : String :=
  "참석자 목록에 이메일 형식이 아닌 항목이 있어요. 수정 후 다시 저장해주세요."

/-- `tryAddAttendee()`: clears the error, trims the input; an empty value
is ignored; an invalid email sets the field error; a valid email is pushed
unless already present (`includes`), and the input is cleared. -/
def tryAddAttendee (st : CalState) : CalState :=
  let st := { st with attendeeError := none }
  let v := jsTrim st.attendeeInput
  if v = "" then st
  else if !isValidEmail v then { st with attendeeError := some attendeeFormatError }
  else
    let att := if st.modal.attendees.contains v then st.modal.attendees
               else st.modal.attendees ++ [v]
    { st with modal := { st.modal with attendees := att }, attendeeInput := "" }

/-- `removeAttendee(idx)` = `modal.attendees.splice(idx, 1)`, with the
ECMAScript `splice` index normalisation: a negative index counts from the
end (clamped to 0), an index past the length deletes nothing. -/
def removeAttendee (l : List String) (idx : Int) : List String :=
  let len : Int := l.length
  let actual : Nat := (if idx < 0 then max (len + idx) 0 else min idx len).toNat
  l.take actual ++ l.drop (actual + 1)

/-! ## Save submission (`saveModal` in `CalendarComponent.vue`) -/

/-- The JSON body built by `saveModal`: `location` / `description` are
only added when their trimmed value is truthy. -/
structure SavePayload where
  summary : String
  start : String
  «end» : String
  location : Option String
  description : Option String
  attendees : List String
deriving Repr, DecidableEq

/-- The query parameters of the create / update call; `send_updates` is
spread in only when truthy. -/
structure SaveParams where
  session_id : String
  calendar_id : String
  send_updates : Option String
deriving Repr, DecidableEq

/-- Lines 567–576 of `CalendarComponent.vue`: the payload construction. -/
def buildPayload (m : ModalState) (startISO endISO : String) : SavePayload :=
  { summary := jsTrim (if m.title = "" then "일정" else m.title)
    start := startISO
    «end» := endISO
    attendees := m.attendees
    location := if jsTrim m.location ≠ "" then some (jsTrim m.location) else none
    description := if jsTrim m.description ≠ "" then some (jsTrim m.description) else none }

/-- Lines 578–584: `send_updates` is `"all"`/`"none"` when there are
attendees, `undefined` otherwise. -/
def sendUpdates (attendees : List String) (notify : Bool) : Option String :=
  if attendees.length > 0 then some (if notify then "all" else "none") else none

/-- The query parameters of the save request (`send_updates` spread in
only when the computed value is truthy). -/
def buildSaveParams (sessionId : String) (m : ModalState) : SaveParams :=
  let su := sendUpdates m.attendees m.notifyAttendees
  { session_id := sessionId
    calendar_id := jsOrDefault m.calendarId "primary"
    send_updates := if jsTruthy su then su else none }

/-- Which backend request `saveModal` issued, if any. -/
inductive SaveCall
  | noCall
  | createCall (payload : SavePayload) (params : SaveParams)
  | updateCall (id : String) (payload : SavePayload) (params : SaveParams)
deriving Repr, DecidableEq

/-- Environment of one `saveModal` run: the browser's `Date` parsing and
formatting, and the outcome of the backend request (unused when no
request is issued). -/
structure SaveEnv where
  parseDate : String → Int
  toISO : Int → String
  backend : Except Unit Unit

/-- Result of one `saveModal` run: the settled component state, the
request issued, and whether `refetchEvents()` was triggered. -/
structure SaveResult where
  state : CalState
  call : SaveCall
  refetch : Bool

/-- `saveModal()`: guard on a non-empty start, set `saving`, normalise the
times, validate the stored attendees, build payload and params, issue the
create (`mode === "create"`) or update (`else if (modal.id)`) request; on
success close the modal and refetch; exceptions are caught; `saving` is
cleared in `finally`.  In edit mode with a falsy id no request is issued
but the close-and-refetch tail still runs. -/
def saveModal (st : CalState) (sessionId : String) (env : SaveEnv) : SaveResult :=
  if st.modal.startLocal = "" then { state := st, call := SaveCall.noCall, refetch := false }
  else
    let st1 : CalState := { st with saving := true }
    let s := env.parseDate st.modal.startLocal
    let e : Option Int :=
      if st.modal.endLocal = "" then none else some (env.parseDate st.modal.endLocal)
    let se := ensureEndAfterStart s e
    if st.modal.attendees.any (fun a => !isValidEmail a) then
      { state := { st1 with attendeeError := some attendeeListError, saving := false }
        call := SaveCall.noCall
        refetch := false }
    else
      let payload := buildPayload st.modal (env.toISO se.1) (env.toISO se.2)
      let params := buildSaveParams sessionId st.modal
      let call : SaveCall :=
        if st.modal.mode = Mode.create then SaveCall.createCall payload params
        else
          match st.modal.id with
          | some i => if i = "" then SaveCall.noCall else SaveCall.updateCall i payload params
          | none => SaveCall.noCall
      match call, env.backend with
      | SaveCall.noCall, _ =>
          { state := { closeState st1 with saving := false }
            call := SaveCall.noCall
            refetch := true }
      | c, .ok _ =>
          { state := { closeState st1 with saving := false }, call := c, refetch := true }
      | c, .error _ =>
          { state := { st1 with saving := false }, call := c, refetch := false }

/-! ## Grid range-fetch callback (`options.events`) -/

/-- Shape of the list-events response body: either an object whose `items`
field may or may not be an array, or a bare array. -/
inductive BackendData
  | obj (items : Option (List WireEvent))
  | arr (events : List WireEvent)

/-- `Array.isArray(data?.items) ? data.items : Array.isArray(data) ? data : []`. -/
def extractItems : BackendData → List WireEvent
  | .obj (some l) => l
  | .obj none => []
  | .arr l => l

/-- What the callback delivered to FullCalendar: `success(events)` or
`failure(e)`. -/
inductive FetchOutcome
  | success (events : List MappedEvent)
  | failure
deriving Repr, DecidableEq

/-- Result of one run of the `events` callback: whether the backend was
contacted, and what was delivered to the widget. -/
structure FetchResult where
  networkCalled : Bool
  outcome : FetchOutcome
deriving Repr, DecidableEq

/-- The `events: async (info, success, failure) => ...` callback: behind
the connection gate it delivers `success([])` without any request;
otherwise it requests the window, maps the items, and reports transport
errors through `failure`. -/
def eventsCallback (u : UserState) (resp : Except Unit BackendData) : FetchResult :=
  if !u.authed || !u.googleConnected then
    { networkCalled := false, outcome := FetchOutcome.success [] }
  else
    match resp with
    | .ok d =>
        { networkCalled := true
          outcome := FetchOutcome.success ((extractItems d).map mapFromBackend) }
    | .error _ => { networkCalled := true, outcome := FetchOutcome.failure }

/-! ## Concrete states and environments used by the witnesses -/

/-- A not-yet-connected user state. -/
def anonUser : UserState :=
  { authed := false
    profile := { name := "" }
    googleConnected := false
    googleEmail := none
    busy := false
    initialized := false
    hasRefresh := false }

/-- An initialized, fully connected user state. -/
def readyUser : UserState :=
  { anonUser with
    authed := true
    googleConnected := true
    initialized := true }

/-- A login run in which the user cancels the popup. -/
def envNoCode : LoginEnv :=
  { codeResp := Except.ok none
    connectResp := Except.ok ()
    statusResp := Except.error () }

/-- A status response reporting a connected profile. -/
def connectedStatus : StatusData :=
  { connected := true
    email := some "a@b.com"
    profilePresent := true
    profileName := some "A" }

/-- A successful login run whose status response reports a connected
profile. -/
def envConnected : LoginEnv :=
  { codeResp := Except.ok (some "4/abc")
    connectResp := Except.ok ()
    statusResp := Except.ok connectedStatus }

/-! ## Claims -/

/-- C1: `isReady` is true iff both `authed` and `googleConnected` are
true, and every run of the grid's range-fetch callback while `isReady` is
false issues no network request and delivers the empty event list. -/
theorem isReady_gates_fetchRange :
    (∀ s : UserState, isReady s = true ↔ (s.authed = true ∧ s.googleConnected = true)) ∧
    (∀ (s : UserState) (resp : Except Unit BackendData), isReady s = false →
      (eventsCallback s resp).networkCalled = false ∧
      (eventsCallback s resp).outcome = FetchOutcome.success []) := by
  constructor
  · intro s
    cases h : s.authed <;> cases h' : s.googleConnected <;> simp [isReady, h, h']
  · intro s resp h
    cases ha : s.authed <;> cases hc : s.googleConnected <;>
      simp_all [isReady, eventsCallback]

/-- Witness for C1 at a concrete disconnected state. -/
theorem isReady_gates_fetchRange_witness :
    (eventsCallback anonUser (Except.ok (BackendData.obj none))).networkCalled = false ∧
    (eventsCallback anonUser (Except.ok (BackendData.obj none))).outcome =
      FetchOutcome.success [] :=
  isReady_gates_fetchRange.2 anonUser (Except.ok (BackendData.obj none)) (by decide)

/-- C2: `ensureEndAfterStart(s, e)` keeps the start, always returns an end
strictly after it, and returns exactly `s + 1h` whenever the end is absent
or not after the start. -/
theorem ensureEndAfterStart_spec (s : Int) (e : Option Int) :
    (ensureEndAfterStart s e).1 = s ∧
    s < (ensureEndAfterStart s e).2 ∧
    (e = none → (ensureEndAfterStart s e).2 = s + oneHour) ∧
    (∀ x, e = some x → x ≤ s → (ensureEndAfterStart s e).2 = s + oneHour) := by
  refine ⟨rfl, ?_, ?_, ?_⟩
  · cases e with
    | none => simp [ensureEndAfterStart, oneHour]
    | some x =>
        by_cases h : x ≤ s
        · simp [ensureEndAfterStart, oneHour, h]
        · simp only [ensureEndAfterStart, oneHour, if_neg h]
          omega
  · intro h
    subst h
    simp [ensureEndAfterStart]
  · intro x hx hle
    subst hx
    simp [ensureEndAfterStart, hle]

/-- Witness for C2: a concrete end at or before the start is replaced by
start + one hour. -/
theorem ensureEndAfterStart_spec_witness :
    (ensureEndAfterStart 1000 (some 1000)).2 = 1000 + oneHour ∧
    (ensureEndAfterStart 1000 none).2 = 1000 + oneHour :=
  ⟨(ensureEndAfterStart_spec 1000 (some 1000)).2.2.2 1000 rfl (by decide),
   (ensureEndAfterStart_spec 1000 none).2.2.1 rfl⟩

/-- C5: the mapped event is all-day exactly when the wire start carries a
date and no time of day: a (non-empty) `start.date` with `start.dateTime`
absent yields `allDay = true`, and a (non-empty) `start.dateTime` yields
`allDay = false`. -/
theorem mapFromBackend_allDay (e : WireEvent) :
    (∀ st d, e.start = some st → st.date = some d → d ≠ "" → st.dateTime = none →
      (mapFromBackend e).allDay = true) ∧
    (∀ st t, e.start = some st → st.dateTime = some t → t ≠ "" →
      (mapFromBackend e).allDay = false) := by
  constructor
  · intro st d hst hd hne hdt
    simp [mapFromBackend, hst, hd, hdt, jsTruthy, hne]
  · intro st t hst ht hne
    simp [mapFromBackend, hst, ht, jsTruthy, hne]

/-- A concrete date-only wire event. -/
def wAllDayEvent : WireEvent :=
  { id := "1", start := some { date := some "2024-01-01" } }

/-- A concrete timed wire event. -/
def wTimedEvent : WireEvent :=
  { id := "2", start := some { dateTime := some "2024-01-01T10:00:00+09:00" } }

/-- Witness for C5 at a concrete date-only and a concrete timed event. -/
theorem mapFromBackend_allDay_witness :
    (mapFromBackend wAllDayEvent).allDay = true ∧
    (mapFromBackend wTimedEvent).allDay = false :=
  ⟨(mapFromBackend_allDay wAllDayEvent).1 _ "2024-01-01" rfl rfl (by decide) rfl,
   (mapFromBackend_allDay wTimedEvent).2 _ "2024-01-01T10:00:00+09:00" rfl rfl (by decide)⟩

/-- C6: `initialized` is monotone: `fetchGoogleStatus` sets it on every
completion (its `finally` runs on success and on failure), and none of
the store's operations ever resets it to false. -/
theorem initialized_monotone :
    (∀ (s : UserState) (r : Except Unit StatusData),
        (fetchGoogleStatus s r).initialized = true) ∧
    (∀ (s : UserState) (env : LoginEnv), s.initialized = true →
        (loginAndConnect s env).2.initialized = true) ∧
    (∀ (s : UserState) (d : Except Unit Unit) (r : Except Unit StatusData),
        s.initialized = true → (disconnectGoogle s d r).initialized = true) ∧
    (∀ s : UserState, (logout s).initialized = true) := by
  have hfetch : ∀ (s : UserState) (r : Except Unit StatusData),
      (fetchGoogleStatus s r).initialized = true := by
    intro s r
    cases r with
    | error e => rfl
    | ok d => simp [fetchGoogleStatus]
  refine ⟨hfetch, ?_, ?_, fun s => rfl⟩
  · intro s env hs
    cases hc : env.codeResp with
    | error e => simp [loginAndConnect, hc, hs]
    | ok c =>
      cases c with
      | none => simp [loginAndConnect, hc, hs]
      | some code =>
        by_cases hcode : code = "" <;>
          cases hconn : env.connectResp <;>
            cases hst : env.statusResp <;>
              simp [loginAndConnect, hc, hconn, hst, hcode, hs, hfetch]
  · intro s d r hs
    cases d with
    | error e => simp [disconnectGoogle, hs]
    | ok u => simp [disconnectGoogle, hfetch]

/-- Witness for C6: the monotone parts applied at an already-initialized
state (a cancelled login and a failing disconnect both keep
`initialized`). -/
theorem initialized_monotone_witness :
    (loginAndConnect readyUser envNoCode).2.initialized = true ∧
    (disconnectGoogle readyUser (Except.error ()) (Except.error ())).initialized = true :=
  ⟨initialized_monotone.2.1 readyUser envNoCode (by decide),
   initialized_monotone.2.2.1 readyUser (Except.error ()) (Except.error ()) (by decide)⟩

/-- C7: every run of `loginAndConnect` settles with `busy = false`; an
exception in any step or a missing authorization code yields `false`; and
in the fully successful run the returned boolean is exactly the
`googleConnected` produced by the post-connect status refresh. -/
theorem loginAndConnect_spec (s : UserState) (env : LoginEnv) :
    (loginAndConnect s env).2.busy = false ∧
    (env.codeResp = Except.error () → (loginAndConnect s env).1 = false) ∧
    (env.codeResp = Except.ok none → (loginAndConnect s env).1 = false) ∧
    (env.connectResp = Except.error () → (loginAndConnect s env).1 = false) ∧
    (env.statusResp = Except.error () → (loginAndConnect s env).1 = false) ∧
    (∀ c d, env.codeResp = Except.ok (some c) → c ≠ "" →
        env.connectResp = Except.ok () → env.statusResp = Except.ok d →
        (loginAndConnect s env).1 = (loginAndConnect s env).2.googleConnected ∧
        (loginAndConnect s env).2.googleConnected =
          (fetchGoogleStatus { s with busy := true } (Except.ok d)).googleConnected) := by
  obtain ⟨cr, nr, sr⟩ := env
  cases cr with
  | error e => cases e; simp [loginAndConnect]
  | ok c =>
    cases c with
    | none => simp [loginAndConnect]
    | some code =>
      by_cases hcode : code = ""
      · subst hcode
        simp only [loginAndConnect]
        simp
        intro c d hc hne _ _
        exact absurd hc.symm hne
      · cases nr with
        | error e => cases e; simp [loginAndConnect, hcode]
        | ok u =>
          cases u
          cases sr with
          | error e => cases e; simp [loginAndConnect, hcode]
          | ok d => simp [loginAndConnect, hcode]

/-- Witness for C7: a concrete successful run returns the refreshed
`googleConnected`, and concrete failing runs return `false` with `busy`
cleared. -/
theorem loginAndConnect_spec_witness :
    (loginAndConnect anonUser envConnected).2.busy = false ∧
    (loginAndConnect anonUser envNoCode).1 = false ∧
    (loginAndConnect anonUser envConnected).1 =
      (loginAndConnect anonUser envConnected).2.googleConnected :=
  ⟨(loginAndConnect_spec anonUser envConnected).1,
   (loginAndConnect_spec anonUser envNoCode).2.2.1 rfl,
   ((loginAndConnect_spec anonUser envConnected).2.2.2.2.2 "4/abc"
      { connected := true, email := some "a@b.com", profilePresent := true,
        profileName := some "A" } rfl (by decide) rfl rfl).1⟩

/-- The `send_updates` value attached by `buildSaveParams`, in closed
form. -/
theorem buildSaveParams_send_updates (sid : String) (m : ModalState) :
    (buildSaveParams sid m).send_updates =
      if m.attendees = [] then none
      else some (if m.notifyAttendees then "all" else "none") := by
  cases hl : m.attendees with
  | nil => simp [buildSaveParams, sendUpdates, hl, jsTruthy]
  | cons a t =>
      cases hn : m.notifyAttendees <;>
        simp [buildSaveParams, sendUpdates, hl, hn, jsTruthy]

/-- C3: every request issued by `saveModal` carries no `send_updates`
parameter when the attendee list is empty, and carries `"all"` /
`"none"` according to `notifyAttendees` when it is non-empty. -/
theorem saveModal_sendUpdates (st : CalState) (sid : String) (env : SaveEnv) :
    ∀ p q i, ((saveModal st sid env).call = SaveCall.createCall p q ∨
        (saveModal st sid env).call = SaveCall.updateCall i p q) →
      (st.modal.attendees = [] → q.send_updates = none) ∧
      (st.modal.attendees ≠ [] → q.send_updates =
        some (if st.modal.notifyAttendees then "all" else "none")) := by
  intro p q i hcall
  have hq : q = buildSaveParams sid st.modal := by
    rcases hcall with h | h <;>
    · simp only [saveModal] at h
      repeat' split at h
      all_goals simp_all
  subst hq
  rw [buildSaveParams_send_updates]
  constructor
  · intro h
    simp [h]
  · intro h
    simp [h]

/-- A form with one attendee and `notifyAttendees = false`, ready to
save. -/
def saveFormState : CalState :=
  { modal := { emptyModal with
      «open» := true
      startLocal := "2024-01-01T10:00"
      attendees := ["a@b.c"]
      notifyAttendees := false }
    saving := false
    attendeeInput := ""
    attendeeError := none }

/-- A save environment whose backend call succeeds. -/
def saveEnvOk : SaveEnv :=
  { parseDate := fun _ => 0, toISO := fun _ => "iso", backend := Except.ok () }

/-- A save environment whose backend call fails. -/
def saveEnvErr : SaveEnv :=
  { parseDate := fun _ => 0, toISO := fun _ => "iso", backend := Except.error () }

/-- Witness for C3: the concrete save with one attendee and
`notifyAttendees = false` carries `send_updates = "none"`. -/
theorem saveModal_sendUpdates_witness :
    (buildSaveParams "sid" saveFormState.modal).send_updates = some "none" :=
  ((saveModal_sendUpdates saveFormState "sid" saveEnvOk
      (buildPayload saveFormState.modal "iso" "iso")
      (buildSaveParams "sid" saveFormState.modal) "x"
      (Or.inl (by decide))).2 (by decide)).trans (by decide)

/-- C4: the wire payload built at save time has the trimmed title (or the
fixed placeholder for an empty title) as `summary`, carries the
`location` / `description` keys exactly when their trimmed values are
non-empty (with the trimmed value), and always carries the full attendee
list. -/
theorem buildPayload_spec (m : ModalState) (sISO eISO : String) :
    (m.title = "" → (buildPayload m sISO eISO).summary = "일정") ∧
    (m.title ≠ "" → (buildPayload m sISO eISO).summary = jsTrim m.title) ∧
    ((buildPayload m sISO eISO).location =
      if jsTrim m.location = "" then none else some (jsTrim m.location)) ∧
    ((buildPayload m sISO eISO).description =
      if jsTrim m.description = "" then none else some (jsTrim m.description)) ∧
    (buildPayload m sISO eISO).attendees = m.attendees := by
  refine ⟨?_, ?_, ?_, ?_, rfl⟩
  · intro h
    have hj : jsTrim "일정" = "일정" := by decide
    simp [buildPayload, h, hj]
  · intro h
    simp [buildPayload, h]
  · by_cases h : jsTrim m.location = "" <;> simp [buildPayload, h]
  · by_cases h : jsTrim m.description = "" <;> simp [buildPayload, h]

/-- A form with a padded title and location and an empty description. -/
def paddedForm : ModalState :=
  { emptyModal with title := "  hi ", location := " here ", attendees := ["a@b.c"] }

/-- Witness for C4 at concrete forms: the placeholder for an empty title,
the trimmed included location, the omitted empty description. -/
theorem buildPayload_spec_witness :
    (buildPayload emptyModal "s" "e").summary = "일정" ∧
    (buildPayload paddedForm "s" "e").summary = "hi" ∧
    (buildPayload paddedForm "s" "e").location = some "here" ∧
    (buildPayload paddedForm "s" "e").description = none :=
  ⟨(buildPayload_spec emptyModal "s" "e").1 rfl,
   ((buildPayload_spec paddedForm "s" "e").2.1 (by decide)).trans (by decide),
   ((buildPayload_spec paddedForm "s" "e").2.2.1).trans (by decide),
   ((buildPayload_spec paddedForm "s" "e").2.2.2.1).trans (by decide)⟩

/-- C8: once a save passes the non-empty-start guard (in a live editor
session: the modal is open, and an edit session carries its event id),
the run settles with `Saving` cleared; the editor is reset to the neutral
empty state and a grid refetch is triggered exactly when a backend call
was issued and succeeded; on backend failure the form contents are left
untouched for a retry. -/
theorem saveModal_settles (st : CalState) (sid : String) (env : SaveEnv)
    (hstart : st.modal.startLocal ≠ "")
    (hopen : st.modal.«open» = true)
    (hid : st.modal.mode = Mode.edit → ∃ i, st.modal.id = some i ∧ i ≠ "") :
    (saveModal st sid env).state.saving = false ∧
    ((saveModal st sid env).state.modal = emptyModal ↔
      ((saveModal st sid env).call ≠ SaveCall.noCall ∧ env.backend = Except.ok ())) ∧
    ((saveModal st sid env).refetch = true ↔
      ((saveModal st sid env).call ≠ SaveCall.noCall ∧ env.backend = Except.ok ())) ∧
    (env.backend = Except.error () → (saveModal st sid env).state.modal = st.modal) := by
  have hne : st.modal ≠ emptyModal := by
    intro h
    rw [h] at hopen
    simp [emptyModal] at hopen
  simp only [saveModal]
  rw [if_neg hstart]
  by_cases hval : (st.modal.attendees.any fun a => !isValidEmail a) = true
  · rw [if_pos hval]
    refine ⟨rfl, ?_, ?_, fun _ => rfl⟩
    · constructor
      · intro h
        exact absurd h hne
      · rintro ⟨hc, -⟩
        exact absurd rfl hc
    · constructor
      · intro h
        cases h
      · rintro ⟨hc, -⟩
        exact absurd rfl hc
  · rw [if_neg hval]
    cases hmode : st.modal.mode with
    | create =>
        cases hb : env.backend with
        | ok u =>
            cases u
            simp [closeState]
        | error e =>
            cases e
            simp_all [closeState]
    | edit =>
        obtain ⟨idv, hidv, hidne⟩ := hid hmode
        rw [hidv]
        cases hb : env.backend with
        | ok u =>
            cases u
            simp [closeState, hidne, hmode]
        | error e =>
            cases e
            simp_all [closeState, hidne]

/-- Witness for C8: the concrete create-mode save with a succeeding
backend settles with `saving = false`, a reset modal and a refetch. -/
theorem saveModal_settles_witness :
    (saveModal saveFormState "sid" saveEnvOk).state.saving = false ∧
    ((saveModal saveFormState "sid" saveEnvOk).state.modal = emptyModal ↔
      ((saveModal saveFormState "sid" saveEnvOk).call ≠ SaveCall.noCall ∧
        saveEnvOk.backend = Except.ok ())) ∧
    ((saveModal saveFormState "sid" saveEnvOk).refetch = true ↔
      ((saveModal saveFormState "sid" saveEnvOk).call ≠ SaveCall.noCall ∧
        saveEnvOk.backend = Except.ok ())) ∧
    (saveEnvOk.backend = Except.error () →
      (saveModal saveFormState "sid" saveEnvOk).state.modal = saveFormState.modal) :=
  saveModal_settles saveFormState "sid" saveEnvOk (by decide) (by decide)
    (fun h => absurd h (by decide))

/-- The attendee list produced by `tryAddAttendee`, in closed form. -/
theorem tryAddAttendee_attendees_eq (st : CalState) :
    (tryAddAttendee st).modal.attendees =
      if jsTrim st.attendeeInput = "" then st.modal.attendees
      else if isValidEmail (jsTrim st.attendeeInput) = false then st.modal.attendees
      else if jsTrim st.attendeeInput ∈ st.modal.attendees then st.modal.attendees
      else st.modal.attendees ++ [jsTrim st.attendeeInput] := by
  by_cases h0 : jsTrim st.attendeeInput = ""
  · simp [tryAddAttendee, h0]
  · by_cases h1 : isValidEmail (jsTrim st.attendeeInput) = false
    · simp [tryAddAttendee, h0, h1]
    · have h1' : isValidEmail (jsTrim st.attendeeInput) = true := by
        cases h : isValidEmail (jsTrim st.attendeeInput)
        · exact absurd h h1
        · rfl
      by_cases h2 : jsTrim st.attendeeInput ∈ st.modal.attendees <;>
        simp [tryAddAttendee, h0, h1', h2]

/-- A modal state whose attendee list, seeded from backend data by
`openEdit`, already holds the same email twice, with that email typed in
the input box. -/
def dupAttendeeState : CalState :=
  { modal := { emptyModal with attendees := ["a@b.c", "a@b.c"] }
    saving := false
    attendeeInput := "a@b.c"
    attendeeError := none }

/-- C9 counterexample: on an attendee list that already holds `a@b.c`
twice, adding the (valid) email `a@b.c` twice leaves two occurrences in
the list, not exactly one. -/
theorem tryAddAttendee_dup_counterexample :
    isValidEmail "a@b.c" = true ∧
    (tryAddAttendee { tryAddAttendee dupAttendeeState with
        attendeeInput := "a@b.c" }).modal.attendees.count "a@b.c" = 2 := by
  decide

/-- C9 (amended): an empty-after-trim input leaves the list unchanged; an
invalid input leaves the list unchanged and sets the field-level error; a
valid new email is appended and the input cleared; and adding the same
valid email twice leaves exactly one occurrence provided the list held at
most one occurrence beforehand (as every list built by the add operation
does). -/
theorem tryAddAttendee_spec (st : CalState) :
    (jsTrim st.attendeeInput = "" →
      (tryAddAttendee st).modal.attendees = st.modal.attendees) ∧
    (jsTrim st.attendeeInput ≠ "" → isValidEmail (jsTrim st.attendeeInput) = false →
      (tryAddAttendee st).modal.attendees = st.modal.attendees ∧
      (tryAddAttendee st).attendeeError = some attendeeFormatError) ∧
    (isValidEmail (jsTrim st.attendeeInput) = true →
      jsTrim st.attendeeInput ∉ st.modal.attendees →
      (tryAddAttendee st).modal.attendees =
        st.modal.attendees ++ [jsTrim st.attendeeInput] ∧
      (tryAddAttendee st).attendeeInput = "") ∧
    (isValidEmail (jsTrim st.attendeeInput) = true →
      st.modal.attendees.count (jsTrim st.attendeeInput) ≤ 1 →
      (tryAddAttendee { tryAddAttendee st with
        attendeeInput := st.attendeeInput }).modal.attendees.count
          (jsTrim st.attendeeInput) = 1) := by
  have hValNe : isValidEmail (jsTrim st.attendeeInput) = true →
      jsTrim st.attendeeInput ≠ "" := by
    intro hval h
    rw [h] at hval
    exact absurd hval (by decide)
  refine ⟨?_, ?_, ?_, ?_⟩
  · intro h
    simp [tryAddAttendee, h]
  · intro hne hinv
    constructor
    · rw [tryAddAttendee_attendees_eq, if_neg hne, if_pos hinv]
    · simp [tryAddAttendee, hne, hinv]
  · intro hval hmem
    have hne := hValNe hval
    constructor
    · rw [tryAddAttendee_attendees_eq, if_neg hne, if_neg (by simp [hval]),
        if_neg hmem]
    · simp [tryAddAttendee, hne, hval]
  · intro hval hcount
    have hne := hValNe hval
    have hsnd : (tryAddAttendee { tryAddAttendee st with
        attendeeInput := st.attendeeInput }).modal.attendees =
        if jsTrim st.attendeeInput ∈ (tryAddAttendee st).modal.attendees then
          (tryAddAttendee st).modal.attendees
        else (tryAddAttendee st).modal.attendees ++ [jsTrim st.attendeeInput] := by
      rw [tryAddAttendee_attendees_eq]
      simp only [if_neg hne, if_neg (by simp [hval] : ¬ isValidEmail
        (jsTrim st.attendeeInput) = false)]
    by_cases hmem : jsTrim st.attendeeInput ∈ st.modal.attendees
    · have h1 : (tryAddAttendee st).modal.attendees = st.modal.attendees := by
        rw [tryAddAttendee_attendees_eq, if_neg hne,
          if_neg (by simp [hval]), if_pos hmem]
      rw [hsnd, h1, if_pos hmem]
      have hpos : 0 < st.modal.attendees.count (jsTrim st.attendeeInput) :=
        List.count_pos_iff.mpr hmem
      omega
    · have h1 : (tryAddAttendee st).modal.attendees =
          st.modal.attendees ++ [jsTrim st.attendeeInput] := by
        rw [tryAddAttendee_attendees_eq, if_neg hne,
          if_neg (by simp [hval]), if_neg hmem]
      have hz : st.modal.attendees.count (jsTrim st.attendeeInput) = 0 :=
        List.count_eq_zero.mpr hmem
      rw [hsnd, h1, if_pos (by simp)]
      simp [hz]

/-- A state with an empty attendee list and a padded valid email typed in
the input box. -/
def freshAddState : CalState :=
  { modal := emptyModal
    saving := false
    attendeeInput := " a@b.c "
    attendeeError := none }

/-- Witness for the amended C9 at a concrete fresh add: the email is
appended trimmed, the input is cleared, and adding it twice leaves one
occurrence. -/
theorem tryAddAttendee_spec_witness :
    (tryAddAttendee freshAddState).modal.attendees =
      freshAddState.modal.attendees ++ [jsTrim freshAddState.attendeeInput] ∧
    (tryAddAttendee freshAddState).attendeeInput = "" ∧
    (tryAddAttendee { tryAddAttendee freshAddState with
      attendeeInput := freshAddState.attendeeInput }).modal.attendees.count
        (jsTrim freshAddState.attendeeInput) = 1 :=
  ⟨((tryAddAttendee_spec freshAddState).2.2.1 (by decide) (by decide)).1,
   ((tryAddAttendee_spec freshAddState).2.2.1 (by decide) (by decide)).2,
   (tryAddAttendee_spec freshAddState).2.2.2 (by decide) (by decide)⟩

/-- C10 counterexample: `removeAttendee(-1)` on a one-element list is not
a no-op although `-1` addresses no position of the list: JavaScript
`splice` counts a negative index from the end and removes the last
element. -/
theorem removeAttendee_counterexample :
    removeAttendee ["a@b.c"] (-1) = [] ∧
    removeAttendee ["a@b.c"] (-1) ≠ ["a@b.c"] := by
  decide

/-- `removeAttendee` in closed form: erase at the `splice`-normalised
index. -/
theorem removeAttendee_eq (l : List String) (i : Int) :
    removeAttendee l i = l.eraseIdx
      ((if i < 0 then max ((l.length : Int) + i) 0 else min i (l.length : Int)).toNat) := by
  simp only [removeAttendee]
  rw [List.eraseIdx_eq_take_drop_succ]

/-- C10 (amended): `removeAttendee(index)` removes exactly the element at
`index` when `0 ≤ index < length`, is a no-op for every `index ≥ length`,
and for a negative `index` removes the element at position
`length + index` counted from the end, clamped to the first element
(JavaScript `splice` semantics). -/
theorem removeAttendee_spec (l : List String) (i : Int) :
    (0 ≤ i → i < (l.length : Int) → removeAttendee l i = l.eraseIdx i.toNat) ∧
    ((l.length : Int) ≤ i → removeAttendee l i = l) ∧
    (i < 0 → removeAttendee l i = l.eraseIdx ((l.length : Int) + i).toNat) := by
  refine ⟨?_, ?_, ?_⟩
  · intro h0 hlt
    rw [removeAttendee_eq, if_neg (by omega)]
    congr 1
    omega
  · intro hge
    rw [removeAttendee_eq, if_neg (by omega)]
    have hmin : (min i (l.length : Int)).toNat = l.length := by omega
    rw [hmin]
    exact List.eraseIdx_of_length_le le_rfl
  · intro hneg
    rw [removeAttendee_eq, if_pos hneg]
    congr 1
    omega

/-- Witness for the amended C10: in-range removal by position, the no-op
past the end, and the from-the-end removal at `-1`. -/
theorem removeAttendee_spec_witness :
    removeAttendee ["a", "b", "c"] 1 = (["a", "b", "c"] : List String).eraseIdx (1 : Int).toNat ∧
    removeAttendee ["a"] 5 = ["a"] ∧
    removeAttendee ["a", "b"] (-1) =
      (["a", "b"] : List String).eraseIdx (((["a", "b"] : List String).length : Int) + (-1)).toNat :=
  ⟨(removeAttendee_spec ["a", "b", "c"] 1).1 (by decide) (by decide),
   (removeAttendee_spec ["a"] 5).2.1 (by decide),
   (removeAttendee_spec ["a", "b"] (-1)).2.2 (by decide)⟩

end ScheduleBot
